import Mathlib

/-!
Verification of the AVX2 32-bit compute backend (avx2_32.cpp) and its C bridge
(bridge_c.h) of the interpret gradient-boosting compute engine.

Modelling conventions:
* A 256-bit AVX2 register holding 8 lanes of 32-bit data is modelled as a
  function from lane position to the lane's 32-bit pattern, a natural number
  below 2 to the 32.  Lane values kept by Avx2_32_Float are IEEE-754 binary32
  bit patterns; the bit-level operations of the source (sign flip via xor,
  absolute value via and, mask-driven blends) act on those patterns exactly.
* Pointers are modelled as element indices into an element-addressed memory
  modelled as a function from the natural numbers; element k of a lane-group
  buffer based at p lives at index p + k.  A pointer p in element units sits
  at byte offset 4 * p, so the IsAligned(ptr, cBytes) check of the source is
  4 * p being divisible by cBytes.
* EBM_ASSERT of a debug build is modelled by returning an Option: none means
  the assertion fired, some means the operation proceeded.
* The horizontal summation tree is additionally modelled over exact rational
  arithmetic (structure Avx2_32_FloatQ) where the dataflow of the reduction is
  the object of interest and rounding is abstracted away.
-/

/-- The AVX2 integer lane-group type of avx2_32.cpp: 8 lanes of uint32_t,
held in a 256-bit register (member m_data).  Each lane is a 32-bit pattern. -/
structure Avx2_32_Int where
  m_data : Fin 8 → ℕ
deriving DecidableEq

/-- The AVX2 float lane-group type of avx2_32.cpp: 8 lanes of float, held in
a 256-bit register (member m_data).  Each lane is an IEEE-754 binary32 bit
pattern. -/
structure Avx2_32_Float where
  m_data : Fin 8 → ℕ
deriving DecidableEq

/-- k_cSIMDPack of the Avx2_32 backend: 8 lanes (1 shifted by k_cSIMDShift = 3). -/
def k_cSIMDPack : ℕ := 8

/-- Unary operator- of Avx2_32_Float: xor of every lane with the sign mask
0x80000000 (the source casts to the integer register, xors with
_mm256_set1_epi32(0x80000000) and casts back). -/
def Avx2_32_Float.neg (val : Avx2_32_Float) : Avx2_32_Float :=
  ⟨fun k => val.m_data k ^^^ 0x80000000⟩

/-- Abs of Avx2_32_Float: and of every lane with 0x7FFFFFFF, clearing the
sign bit (the source ands with _mm256_set1_epi32(0x7FFFFFFF)). -/
def Abs (val : Avx2_32_Float) : Avx2_32_Float :=
  ⟨fun k => val.m_data k &&& 0x7FFFFFFF⟩

/-- Is the binary32 bit pattern a NaN: exponent field all ones and a nonzero
mantissa field.  Semantics of the IEEE comparison the hardware applies. -/
def floatIsNaN (x : ℕ) : Bool :=
  (x >>> 23) &&& 0xFF == 0xFF && x &&& 0x7FFFFF != 0

/-- IEEE-754 binary32 ordered strict less-than on bit patterns: the per-lane
semantics of _mm256_cmp_ps with predicate _CMP_LT_OQ.  Unordered operands
(any NaN) compare false; the two zeros are equal; otherwise sign and
magnitude decide. -/
def floatLt (x y : ℕ) : Bool :=
  if floatIsNaN x || floatIsNaN y then false
  else
    let sx := x.testBit 31
    let sy := y.testBit 31
    let mx := x &&& 0x7FFFFFFF
    let my := y &&& 0x7FFFFFFF
    if mx == 0 && my == 0 then false
    else if sx != sy then sx
    else if sx then my < mx else mx < my

/-- Intrinsic _mm256_cmp_ps with _CMP_LT_OQ: each lane becomes all ones when the
ordered less-than holds there and all zeros otherwise. -/
def mm256_cmp_lt_oq (a b : Fin 8 → ℕ) : Fin 8 → ℕ :=
  fun k => if floatLt (a k) (b k) then 0xFFFFFFFF else 0

/-- Intrinsic _mm256_cmpeq_epi32: each 32-bit lane becomes all ones when the integer
lanes are equal there and all zeros otherwise. -/
def mm256_cmpeq_epi32 (a b : Fin 8 → ℕ) : Fin 8 → ℕ :=
  fun k => if a k = b k then 0xFFFFFFFF else 0

/-- Intrinsic _mm256_blendv_ps: each lane is taken from the second source when the
mask lane's most significant (sign) bit is set, from the first otherwise. -/
def mm256_blendv_ps (a b mask : Fin 8 → ℕ) : Fin 8 → ℕ :=
  fun k => if (mask k).testBit 31 then b k else a k

/-- IfLess of avx2_32.cpp: compare cmp1 < cmp2 with _CMP_LT_OQ, then blend
falseVal/trueVal under the resulting mask. -/
def IfLess (cmp1 cmp2 trueVal falseVal : Avx2_32_Float) : Avx2_32_Float :=
  ⟨mm256_blendv_ps falseVal.m_data trueVal.m_data
    (mm256_cmp_lt_oq cmp1.m_data cmp2.m_data)⟩

/-- IfEqual of avx2_32.cpp: compare the integer lane-groups with
_mm256_cmpeq_epi32, then blend falseVal/trueVal under the resulting mask
(cast to the float register). -/
def IfEqual (cmp1 cmp2 : Avx2_32_Int) (trueVal falseVal : Avx2_32_Float) : Avx2_32_Float :=
  ⟨mm256_blendv_ps falseVal.m_data trueVal.m_data
    (mm256_cmpeq_epi32 cmp1.m_data cmp2.m_data)⟩

/-- C9 helper: xor with the sign mask flips bit 31 and nothing else. -/
theorem testBit_xor_signMask (x : ℕ) (b : ℕ) :
    (x ^^^ 0x80000000).testBit b = if b = 31 then !(x.testBit b) else x.testBit b := by
  have h31 : (0x80000000 : ℕ) = 2 ^ 31 := by norm_num
  rw [Nat.testBit_xor, h31, Nat.testBit_two_pow]
  by_cases hb : b = 31
  · simp [hb, Bool.xor_comm]
  · simp [hb, Ne.symm hb]

/-- C9 helper: and with 0x7FFFFFFF clears bit 31 and keeps bits below 31. -/
theorem testBit_and_absMask (x : ℕ) (b : ℕ) (hb : b < 32) :
    (x &&& 0x7FFFFFFF).testBit b = if b = 31 then false else x.testBit b := by
  have h31 : (0x7FFFFFFF : ℕ) = 2 ^ 31 - 1 := by norm_num
  rw [Nat.testBit_and, h31, Nat.testBit_two_pow_sub_one]
  by_cases hb' : b = 31
  · simp [hb']
  · have : b < 31 := by omega
    simp [hb', this]

/-- C9: unary negation of Avx2_32_Float flips exactly the sign bit (bit 31)
of each lane and Abs clears exactly the sign bit of each lane; consequently
double negation is the bit-for-bit identity, Abs is idempotent, and Abs
absorbs negation — for every lane pattern, including zeros, infinities and
NaNs. -/
theorem avx2_neg_abs_sign_bit (v : Avx2_32_Float)
    (hv : ∀ k : Fin 8, v.m_data k < 2 ^ 32) :
    (∀ (k : Fin 8) (b : ℕ), b < 32 →
        ((Avx2_32_Float.neg v).m_data k).testBit b =
          if b = 31 then !((v.m_data k).testBit b) else (v.m_data k).testBit b) ∧
    (∀ (k : Fin 8) (b : ℕ), b < 32 →
        ((Abs v).m_data k).testBit b =
          if b = 31 then false else (v.m_data k).testBit b) ∧
    Avx2_32_Float.neg (Avx2_32_Float.neg v) = v ∧
    Abs (Abs v) = Abs v ∧
    Abs (Avx2_32_Float.neg v) = Abs v := by
  refine ⟨?_, ?_, ?_, ?_, ?_⟩
  · intro k b _
    exact testBit_xor_signMask (v.m_data k) b
  · intro k b hb
    exact testBit_and_absMask (v.m_data k) b hb
  · cases v with
    | mk f =>
      show Avx2_32_Float.mk _ = Avx2_32_Float.mk f
      refine congrArg Avx2_32_Float.mk (funext fun k => ?_)
      show (f k ^^^ 0x80000000) ^^^ 0x80000000 = f k
      rw [Nat.xor_assoc, Nat.xor_self, Nat.xor_zero]
  · cases v with
    | mk f =>
      refine congrArg Avx2_32_Float.mk (funext fun k => ?_)
      show (f k &&& 0x7FFFFFFF) &&& 0x7FFFFFFF = f k &&& 0x7FFFFFFF
      rw [Nat.land_assoc]
      norm_num
  · cases v with
    | mk f =>
      refine congrArg Avx2_32_Float.mk (funext fun k => ?_)
      show (f k ^^^ 0x80000000) &&& 0x7FFFFFFF = f k &&& 0x7FFFFFFF
      apply Nat.eq_of_testBit_eq
      intro b
      rw [Nat.testBit_and, Nat.testBit_and, Nat.testBit_xor]
      by_cases hb : b = 31
      · subst hb
        have hm : (0x7FFFFFFF : ℕ).testBit 31 = false := by decide
        simp [hm]
      · have : (0x80000000 : ℕ).testBit b = false := by
          have h31 : (0x80000000 : ℕ) = 2 ^ 31 := by norm_num
          rw [h31, Nat.testBit_two_pow]
          simp [Ne.symm hb]
        rw [this, Bool.xor_false]

/-- C9 witness: the sign-bit properties at a concrete lane-group carrying
+0, -0, +infinity, -infinity, a quiet NaN, 1.0f, -1.0f and a denormal. -/
theorem avx2_neg_abs_sign_bit_witness :
    (∀ k : Fin 8,
        (Avx2_32_Float.mk ![0x00000000, 0x80000000, 0x7F800000, 0xFF800000,
          0x7FC00000, 0x3F800000, 0xBF800000, 0x00000001]).m_data k < 2 ^ 32) ∧
    (Avx2_32_Float.neg (Avx2_32_Float.neg
        (Avx2_32_Float.mk ![0x00000000, 0x80000000, 0x7F800000, 0xFF800000,
          0x7FC00000, 0x3F800000, 0xBF800000, 0x00000001])) =
      Avx2_32_Float.mk ![0x00000000, 0x80000000, 0x7F800000, 0xFF800000,
        0x7FC00000, 0x3F800000, 0xBF800000, 0x00000001]) :=
  ⟨by decide,
    (avx2_neg_abs_sign_bit
      (Avx2_32_Float.mk ![0x00000000, 0x80000000, 0x7F800000, 0xFF800000,
        0x7FC00000, 0x3F800000, 0xBF800000, 0x00000001])
      (by decide)).2.2.1⟩

/-- C4: IfLess selects, lane by lane, the trueVal lane where cmp1's lane is
IEEE strictly less than cmp2's lane and the falseVal lane otherwise; IfEqual
makes the same selection with 32-bit integer lane equality as the test. -/
theorem ifLess_ifEqual_select (cmp1 cmp2 trueVal falseVal : Avx2_32_Float)
    (i1 i2 : Avx2_32_Int) (k : Fin 8) :
    (IfLess cmp1 cmp2 trueVal falseVal).m_data k =
      (if floatLt (cmp1.m_data k) (cmp2.m_data k) then trueVal.m_data k
        else falseVal.m_data k) ∧
    (IfEqual i1 i2 trueVal falseVal).m_data k =
      (if i1.m_data k = i2.m_data k then trueVal.m_data k
        else falseVal.m_data k) := by
  have hones : (0xFFFFFFFF : ℕ).testBit 31 = true := by decide
  have hzero : (0 : ℕ).testBit 31 = false := by decide
  constructor
  · show mm256_blendv_ps _ _ _ k = _
    rw [mm256_blendv_ps, mm256_cmp_lt_oq]
    by_cases hk : floatLt (cmp1.m_data k) (cmp2.m_data k)
    · simp [hk, hones]
    · simp [hk, hzero]
  · show mm256_blendv_ps _ _ _ k = _
    rw [mm256_blendv_ps, mm256_cmpeq_epi32]
    by_cases hk : i1.m_data k = i2.m_data k
    · simp [hk, hones]
    · simp [hk, hzero]

/-- The exact-arithmetic model of an Avx2_32_Float lane-group: 8 lanes whose
values are taken in the rationals, so the dataflow of the horizontal
reduction tree can be stated with rounding abstracted away. -/
structure Avx2_32_FloatQ where
  m_data : Fin 8 → ℚ

/-- Intrinsic _mm256_castps256_ps128: the low 4 lanes of an 8-lane group. -/
def mm256_castps256_ps128 (v : Fin 8 → ℚ) : Fin 4 → ℚ :=
  fun k => v ⟨k.val, by omega⟩

/-- Intrinsic _mm256_extractf128_ps with immediate 1: the high 4 lanes of an 8-lane
group. -/
def mm256_extractf128_ps_1 (v : Fin 8 → ℚ) : Fin 4 → ℚ :=
  fun k => v ⟨k.val + 4, by omega⟩

/-- Intrinsic _mm_add_ps: lanewise addition of two 4-lane groups. -/
def mm_add_ps (a b : Fin 4 → ℚ) : Fin 4 → ℚ :=
  fun k => a k + b k

/-- Intrinsic _mm_hadd_ps: horizontal pairwise addition; the result holds the two
adjacent-pair sums of the first operand then those of the second. -/
def mm_hadd_ps (a b : Fin 4 → ℚ) : Fin 4 → ℚ :=
  fun k =>
    if k.val = 0 then a 1 + a 0
    else if k.val = 1 then a 3 + a 2
    else if k.val = 2 then b 1 + b 0
    else b 3 + b 2

/-- Intrinsic _mm_cvtss_f32: the lowest lane of a 4-lane group as a scalar. -/
def mm_cvtss_f32 (a : Fin 4 → ℚ) : ℚ :=
  a 0

/-- Sum of avx2_32.cpp over the exact-arithmetic lane model: add the low
half to the high half, then two horizontal adds, then extract the lowest
lane.  (Named under Avx2_32_FloatQ because the root name Sum is taken by
the library.) -/
def Avx2_32_FloatQ.Sum (val : Avx2_32_FloatQ) : ℚ :=
  let vlow := mm256_castps256_ps128 val.m_data
  let vhigh := mm256_extractf128_ps_1 val.m_data
  let sum := mm_add_ps vlow vhigh
  let sum1 := mm_hadd_ps sum sum
  let sum2 := mm_hadd_ps sum1 sum1
  mm_cvtss_f32 sum2

/-- C5: the horizontal reduction Sum returns the sum across all 8 lanes of
the group (computed as a pairwise tree: low half plus high half, then two
horizontal adds), stated over the exact-arithmetic lane model. -/
theorem sum_spec (v : Avx2_32_FloatQ) :
    Avx2_32_FloatQ.Sum v = v.m_data 0 + v.m_data 1 + v.m_data 2 + v.m_data 3 +
      v.m_data 4 + v.m_data 5 + v.m_data 6 + v.m_data 7 := by
  have h : Avx2_32_FloatQ.Sum v =
      (v.m_data 3 + v.m_data 7 + (v.m_data 2 + v.m_data 6)) +
      (v.m_data 1 + v.m_data 5 + (v.m_data 0 + v.m_data 4)) := rfl
  rw [h]
  ring

/-- Store of a lane-group into a stack-local 8-element aligned temporary
array (the alignas(SIMD_BYTE_ALIGNMENT) T a[k_cSIMDPack] buffers of
Execute and ApplyFunc): element k of the buffer receives lane k. -/
def Avx2_32_Int.StoreArr (v : Avx2_32_Int) : Fin 8 → ℕ :=
  v.m_data

/-- Store of a float lane-group into a stack-local 8-element aligned
temporary array: element k of the buffer receives lane k's bit pattern. -/
def Avx2_32_Float.StoreArr (v : Avx2_32_Float) : Fin 8 → ℕ :=
  v.m_data

/-- Load of a float lane-group back from a stack-local 8-element aligned
temporary array: lane k is read from element k. -/
def Avx2_32_Float.LoadArr (a : Fin 8 → ℕ) : Avx2_32_Float :=
  ⟨a⟩

/-- Avx2_32_Int::Execute of avx2_32.cpp: store val0 to a temporary array,
then invoke the callback once per lane, lane 0 through lane 7, passing the
lane position and that lane's scalar.  The callback's side effects are
modelled by explicit state passing. -/
def Avx2_32_Int.Execute {σ : Type} (func : ℕ → ℕ → σ → σ) (val0 : Avx2_32_Int)
    (s : σ) : σ :=
  let a0 := val0.StoreArr
  let s := func 0 (a0 0) s
  let s := func 1 (a0 1) s
  let s := func 2 (a0 2) s
  let s := func 3 (a0 3) s
  let s := func 4 (a0 4) s
  let s := func 5 (a0 5) s
  let s := func 6 (a0 6) s
  func 7 (a0 7) s

/-- The nullary-value overload Avx2_32_Float::Execute(func): invoke the
callback once per lane position 0 through 7. -/
def Avx2_32_Float.Execute0 {σ : Type} (func : ℕ → σ → σ) (s : σ) : σ :=
  let s := func 0 s
  let s := func 1 s
  let s := func 2 s
  let s := func 3 s
  let s := func 4 s
  let s := func 5 s
  let s := func 6 s
  func 7 s

/-- The one-value overload Avx2_32_Float::Execute(func, val0): store val0 to
a temporary array, then invoke the callback once per lane, lane 0 through
lane 7, with the lane position and that lane's scalar. -/
def Avx2_32_Float.Execute1 {σ : Type} (func : ℕ → ℕ → σ → σ)
    (val0 : Avx2_32_Float) (s : σ) : σ :=
  let a0 := val0.StoreArr
  let s := func 0 (a0 0) s
  let s := func 1 (a0 1) s
  let s := func 2 (a0 2) s
  let s := func 3 (a0 3) s
  let s := func 4 (a0 4) s
  let s := func 5 (a0 5) s
  let s := func 6 (a0 6) s
  func 7 (a0 7) s

/-- The two-value overload Avx2_32_Float::Execute(func, val0, val1): store
both lane-groups to temporary arrays, then invoke the callback once per
lane, lane 0 through lane 7, with the lane position and both lanes'
scalars. -/
def Avx2_32_Float.Execute2 {σ : Type} (func : ℕ → ℕ → ℕ → σ → σ)
    (val0 val1 : Avx2_32_Float) (s : σ) : σ :=
  let a0 := val0.StoreArr
  let a1 := val1.StoreArr
  let s := func 0 (a0 0) (a1 0) s
  let s := func 1 (a0 1) (a1 1) s
  let s := func 2 (a0 2) (a1 2) s
  let s := func 3 (a0 3) (a1 3) s
  let s := func 4 (a0 4) (a1 4) s
  let s := func 5 (a0 5) (a1 5) s
  let s := func 6 (a0 6) (a1 6) s
  func 7 (a0 7) (a1 7) s

/-- ApplyFunc of avx2_32.cpp: store val to a temporary array, replace each
element in place by the callback applied to it, element 0 through element 7,
and load the array back as the result lane-group. -/
def ApplyFunc (func : ℕ → ℕ) (val : Avx2_32_Float) : Avx2_32_Float :=
  let aTemp := val.StoreArr
  let aTemp := Function.update aTemp 0 (func (aTemp 0))
  let aTemp := Function.update aTemp 1 (func (aTemp 1))
  let aTemp := Function.update aTemp 2 (func (aTemp 2))
  let aTemp := Function.update aTemp 3 (func (aTemp 3))
  let aTemp := Function.update aTemp 4 (func (aTemp 4))
  let aTemp := Function.update aTemp 5 (func (aTemp 5))
  let aTemp := Function.update aTemp 6 (func (aTemp 6))
  let aTemp := Function.update aTemp 7 (func (aTemp 7))
  Avx2_32_Float.LoadArr aTemp

/-- C3: for every callback, each Execute overload of the AVX2 backend
invokes the callback once per lane in ascending lane order 0 through 7,
carrying the lane position and that lane's unpacked scalar (witnessed by
the invocation trace each overload produces), and ApplyFunc repacks a
lane-group whose lane k is the callback applied to lane k of the input. -/
theorem execute_applyFunc_spec :
    (∀ (func : ℕ → ℕ) (val : Avx2_32_Float) (k : Fin 8),
        (ApplyFunc func val).m_data k = func (val.m_data k)) ∧
    (∀ (v : Avx2_32_Int),
        Avx2_32_Int.Execute (fun i x t => t ++ [(i, x)]) v [] =
          (List.finRange 8).map fun k => (k.val, v.m_data k)) ∧
    (Avx2_32_Float.Execute0 (fun i t => t ++ [i]) [] =
        (List.finRange 8).map fun k => k.val) ∧
    (∀ (v : Avx2_32_Float),
        Avx2_32_Float.Execute1 (fun i x t => t ++ [(i, x)]) v [] =
          (List.finRange 8).map fun k => (k.val, v.m_data k)) ∧
    (∀ (v0 v1 : Avx2_32_Float),
        Avx2_32_Float.Execute2 (fun i x y t => t ++ [(i, x, y)]) v0 v1 [] =
          (List.finRange 8).map fun k => (k.val, v0.m_data k, v1.m_data k)) := by
  refine ⟨?_, ?_, ?_, ?_, ?_⟩
  · intro func val k
    fin_cases k <;> rfl
  · intro v
    show [] ++ _ ++ _ ++ _ ++ _ ++ _ ++ _ ++ _ ++ _ = _
    have : (List.finRange 8) = [0, 1, 2, 3, 4, 5, 6, 7] := by decide
    simp [this, Avx2_32_Int.StoreArr]
    decide
  · rfl
  · intro v
    show [] ++ _ ++ _ ++ _ ++ _ ++ _ ++ _ ++ _ ++ _ = _
    have : (List.finRange 8) = [0, 1, 2, 3, 4, 5, 6, 7] := by decide
    simp [this, Avx2_32_Float.StoreArr]
    decide
  · intro v0 v1
    show [] ++ _ ++ _ ++ _ ++ _ ++ _ ++ _ ++ _ ++ _ = _
    have : (List.finRange 8) = [0, 1, 2, 3, 4, 5, 6, 7] := by decide
    simp [this, Avx2_32_Float.StoreArr]
    decide

/-- IsAligned(p, cBytes) of common_cpp.hpp as used by the EBM_ASSERT checks:
the pointer's byte address is a multiple of cBytes.  Pointers are modelled
in 4-byte element units, so the byte address of p is 4 * p. -/
def IsAligned (p : ℕ) (cBytes : ℕ) : Prop :=
  4 * p % cBytes = 0

instance (p cBytes : ℕ) : Decidable (IsAligned p cBytes) :=
  inferInstanceAs (Decidable (4 * p % cBytes = 0))

/-- Avx2_32_Int::Load of avx2_32.cpp: EBM_ASSERT(IsAligned(a, sizeof(TPack)))
with sizeof(TPack) = 32, then an aligned 256-bit load of 8 consecutive
uint32_t elements starting at a. -/
def Avx2_32_Int.Load (a : ℕ) (mem : ℕ → ℕ) : Option Avx2_32_Int :=
  if IsAligned a 32 then some ⟨fun k => mem (a + k.val)⟩ else none

/-- Avx2_32_Int::Store of avx2_32.cpp: EBM_ASSERT(IsAligned(a, sizeof(TPack))),
then an aligned 256-bit store of the 8 lanes to consecutive elements
starting at a. -/
def Avx2_32_Int.Store (v : Avx2_32_Int) (a : ℕ) (mem : ℕ → ℕ) : Option (ℕ → ℕ) :=
  if IsAligned a 32 then
    some (fun j => if h : a ≤ j ∧ j < a + 8 then v.m_data ⟨j - a, by omega⟩ else mem j)
  else none

/-- The contiguous Avx2_32_Float::Load of avx2_32.cpp:
EBM_ASSERT(IsAligned(a, sizeof(TPack))), then an aligned 256-bit load of 8
consecutive float elements starting at a. -/
def Avx2_32_Float.Load (a : ℕ) (mem : ℕ → ℕ) : Option Avx2_32_Float :=
  if IsAligned a 32 then some ⟨fun k => mem (a + k.val)⟩ else none

/-- The contiguous Avx2_32_Float::Store of avx2_32.cpp:
EBM_ASSERT(IsAligned(a, sizeof(TPack))), then an aligned 256-bit store of
the 8 lanes to consecutive elements starting at a. -/
def Avx2_32_Float.Store (v : Avx2_32_Float) (a : ℕ) (mem : ℕ → ℕ) : Option (ℕ → ℕ) :=
  if IsAligned a 32 then
    some (fun j => if h : a ≤ j ∧ j < a + 8 then v.m_data ⟨j - a, by omega⟩ else mem j)
  else none

/-- The indexed (gather) Avx2_32_Float::Load overload of avx2_32.cpp:
EBM_ASSERT(IsAligned(a, sizeof(TPack))), then _mm256_i32gather_ps with
element scale: lane k is read from a[i lane k]. -/
def Avx2_32_Float.LoadGather (a : ℕ) (i : Avx2_32_Int) (mem : ℕ → ℕ) :
    Option Avx2_32_Float :=
  if IsAligned a 32 then some ⟨fun k => mem (a + i.m_data k)⟩ else none

/-- The indexed (scatter) Avx2_32_Float::Store overload of avx2_32.cpp:
EBM_ASSERT(IsAligned(a, sizeof(TPack))), then the index and value
lane-groups are stored to aligned temporaries and the eight scalar writes
a[ints[0]] = floats[0] through a[ints[7]] = floats[7] are issued in that
order. -/
def Avx2_32_Float.StoreScatter (v : Avx2_32_Float) (a : ℕ) (i : Avx2_32_Int)
    (mem : ℕ → ℕ) : Option (ℕ → ℕ) :=
  if IsAligned a 32 then
    let ints := i.StoreArr
    let floats := v.StoreArr
    let mem := Function.update mem (a + ints 0) (floats 0)
    let mem := Function.update mem (a + ints 1) (floats 1)
    let mem := Function.update mem (a + ints 2) (floats 2)
    let mem := Function.update mem (a + ints 3) (floats 3)
    let mem := Function.update mem (a + ints 4) (floats 4)
    let mem := Function.update mem (a + ints 5) (floats 5)
    let mem := Function.update mem (a + ints 6) (floats 6)
    some (Function.update mem (a + ints 7) (floats 7))
  else none

/-- C7: every contiguous Load and Store of both AVX2 lane types, and the
indexed gather Load and scatter Store, require the base pointer to be
aligned to the backend's 32-byte register size: the debug assertion does
not fire (the operation returns a value) exactly when the pointer is
32-byte aligned. -/
theorem load_store_alignment (a : ℕ) (mem : ℕ → ℕ) (vi : Avx2_32_Int)
    (vf : Avx2_32_Float) (i : Avx2_32_Int) :
    ((Avx2_32_Int.Load a mem).isSome ↔ IsAligned a 32) ∧
    ((Avx2_32_Int.Store vi a mem).isSome ↔ IsAligned a 32) ∧
    ((Avx2_32_Float.Load a mem).isSome ↔ IsAligned a 32) ∧
    ((Avx2_32_Float.Store vf a mem).isSome ↔ IsAligned a 32) ∧
    ((Avx2_32_Float.LoadGather a i mem).isSome ↔ IsAligned a 32) ∧
    ((Avx2_32_Float.StoreScatter vf a i mem).isSome ↔ IsAligned a 32) := by
  refine ⟨?_, ?_, ?_, ?_, ?_, ?_⟩
  · by_cases h : IsAligned a 32 <;> simp [Avx2_32_Int.Load, h]
  · by_cases h : IsAligned a 32 <;> simp [Avx2_32_Int.Store, h]
  · by_cases h : IsAligned a 32 <;> simp [Avx2_32_Float.Load, h]
  · by_cases h : IsAligned a 32 <;> simp [Avx2_32_Float.Store, h]
  · by_cases h : IsAligned a 32 <;> simp [Avx2_32_Float.LoadGather, h]
  · by_cases h : IsAligned a 32 <;> simp [Avx2_32_Float.StoreScatter, h]

/-- C8: under the alignment precondition, the scalar-scatter Store writes
lane k's float to element a[i lane k] with the writes issued in ascending
lane order, so an element whose index is not among the eight lane indexes
keeps its old value, and when two lanes carry the same index the
higher-numbered lane's value is the one that remains (found by scanning the
lanes from 7 down to 0). -/
theorem storeScatter_spec (v : Avx2_32_Float) (i : Avx2_32_Int) (a : ℕ)
    (mem : ℕ → ℕ) (j : ℕ) (h : IsAligned a 32) :
    (Avx2_32_Float.StoreScatter v a i mem).map (fun m => m j) =
      some (match (List.finRange 8).reverse.find?
          (fun k => a + i.m_data k == j) with
        | some k => v.m_data k
        | none => mem j) := by
  have hrev : (List.finRange 8).reverse = [7, 6, 5, 4, 3, 2, 1, 0] := by decide
  rw [Avx2_32_Float.StoreScatter, if_pos h, hrev]
  simp only [Option.map_some', Avx2_32_Int.StoreArr,
    Avx2_32_Float.StoreArr, List.find?]
  by_cases h7 : a + i.m_data 7 = j
  · simp [Function.update, h7]
  · have b7 : (a + i.m_data 7 == j) = false := by simp [h7]
    rw [Function.update_apply, if_neg (fun hj => h7 hj.symm), b7]
    by_cases h6 : a + i.m_data 6 = j
    · simp [Function.update, h6]
    · have b6 : (a + i.m_data 6 == j) = false := by simp [h6]
      rw [Function.update_apply, if_neg (fun hj => h6 hj.symm), b6]
      by_cases h5 : a + i.m_data 5 = j
      · simp [Function.update, h5]
      · have b5 : (a + i.m_data 5 == j) = false := by simp [h5]
        rw [Function.update_apply, if_neg (fun hj => h5 hj.symm), b5]
        by_cases h4 : a + i.m_data 4 = j
        · simp [Function.update, h4]
        · have b4 : (a + i.m_data 4 == j) = false := by simp [h4]
          rw [Function.update_apply, if_neg (fun hj => h4 hj.symm), b4]
          by_cases h3 : a + i.m_data 3 = j
          · simp [Function.update, h3]
          · have b3 : (a + i.m_data 3 == j) = false := by simp [h3]
            rw [Function.update_apply, if_neg (fun hj => h3 hj.symm), b3]
            by_cases h2 : a + i.m_data 2 = j
            · simp [Function.update, h2]
            · have b2 : (a + i.m_data 2 == j) = false := by simp [h2]
              rw [Function.update_apply, if_neg (fun hj => h2 hj.symm), b2]
              by_cases h1 : a + i.m_data 1 = j
              · simp [Function.update, h1]
              · have b1 : (a + i.m_data 1 == j) = false := by simp [h1]
                rw [Function.update_apply, if_neg (fun hj => h1 hj.symm), b1]
                by_cases h0 : a + i.m_data 0 = j
                · simp [Function.update, h0]
                · have b0 : (a + i.m_data 0 == j) = false := by simp [h0]
                  rw [Function.update_apply, if_neg (fun hj => h0 hj.symm), b0]

/-- C8 witness: the scatter-store characterization at a concrete input in
which lanes 2 and 5 collide on the same element index. -/
theorem storeScatter_spec_witness :
    IsAligned 8 32 ∧
    (Avx2_32_Float.StoreScatter (Avx2_32_Float.mk ![10, 11, 12, 13, 14, 15, 16, 17]) 8
        (Avx2_32_Int.mk ![0, 1, 3, 4, 3, 3, 6, 7]) (fun _ => 99)).map (fun m => m 11) =
      some (match (List.finRange 8).reverse.find?
          (fun k => 8 + (Avx2_32_Int.mk ![0, 1, 3, 4, 3, 3, 6, 7]).m_data k == 11) with
        | some k => (Avx2_32_Float.mk ![10, 11, 12, 13, 14, 15, 16, 17]).m_data k
        | none => (fun _ => (99 : ℕ)) 11) :=
  ⟨by decide,
    storeScatter_spec (Avx2_32_Float.mk ![10, 11, 12, 13, 14, 15, 16, 17])
      (Avx2_32_Int.mk ![0, 1, 3, 4, 3, 3, 6, 7]) 8 (fun _ => 99) 11 (by decide)⟩

/-- The error status type ErrorEbm of libebm.h (header not under src/; the
constructors model the spec's two-tier error design: success, the
invalid-argument condition for an unknown or mismatched objective name, and
allocation failure). -/
inductive ErrorEbm where
  | Error_None
  | Error_IllegalArgument
  | Error_OutOfMemory
deriving DecidableEq

/-- The link-function tag LinkEbm of libebm.h (header not under src/;
Link_ERROR is the sentinel InitializeObjectiveWrapperUnfailing installs,
the other constructors stand for the valid tags a real objective carries). -/
inductive LinkEbm where
  | Link_ERROR
  | Link_identity
  | Link_logit
deriving DecidableEq

/-- The ObjectiveWrapper struct of bridge_c.h: five C entry-point function
pointers, the opaque owned objective closure payload m_pObjective, the
scalar parameters copied out of the objective at creation, and the opaque
owned backend function-pointer payload m_pFunctionPointersCpp.  Pointers
are modelled as Option handles with none standing for NULL; BoolEbm as
Bool with EBM_FALSE as false; double as an exact rational. -/
structure ObjectiveWrapper where
  m_pApplyUpdateC : Option ℕ
  m_pFinishMetricC : Option ℕ
  m_pCheckTargetsC : Option ℕ
  m_pBinSumsBoostingC : Option ℕ
  m_pBinSumsInteractionC : Option ℕ
  m_pObjective : Option ℕ
  m_bMaximizeMetric : Bool
  m_linkFunction : LinkEbm
  m_linkParam : ℚ
  m_learningRateAdjustmentDifferentialPrivacy : ℚ
  m_learningRateAdjustmentGradientBoosting : ℚ
  m_learningRateAdjustmentHessianBoosting : ℚ
  m_gainAdjustmentGradientBoosting : ℚ
  m_gainAdjustmentHessianBoosting : ℚ
  m_gradientConstant : ℚ
  m_hessianConstant : ℚ
  m_bObjectiveHasHessian : Bool
  m_bRmse : Bool
  m_cSIMDPack : ℕ
  m_cFloatBytes : ℕ
  m_cUIntBytes : ℕ
  m_pFunctionPointersCpp : Option ℕ
deriving DecidableEq

/-- The set of live heap allocations, identified by their handles. -/
abbrev Heap := Finset ℕ

/-- The C free function as used by bridge_c.h: releasing a NULL pointer is
a no-op, releasing an allocated handle removes it from the live set. -/
def free : Option ℕ → Heap → Heap
  | none, h => h
  | some p, h => h.erase p

/-- InitializeObjectiveWrapperUnfailing of bridge_c.h: set all five entry
points, the objective payload and the C++ function-pointer payload to NULL,
the link tag to Link_ERROR, and every scalar parameter to zero or false. -/
def InitializeObjectiveWrapperUnfailing (pObjectiveWrapper : ObjectiveWrapper) :
    ObjectiveWrapper :=
  { pObjectiveWrapper with
    m_pApplyUpdateC := none
    m_pFinishMetricC := none
    m_pCheckTargetsC := none
    m_pBinSumsBoostingC := none
    m_pBinSumsInteractionC := none
    m_pObjective := none
    m_bMaximizeMetric := false
    m_linkFunction := LinkEbm.Link_ERROR
    m_linkParam := 0
    m_learningRateAdjustmentDifferentialPrivacy := 0
    m_learningRateAdjustmentGradientBoosting := 0
    m_learningRateAdjustmentHessianBoosting := 0
    m_gainAdjustmentGradientBoosting := 0
    m_gainAdjustmentHessianBoosting := 0
    m_gradientConstant := 0
    m_hessianConstant := 0
    m_bObjectiveHasHessian := false
    m_bRmse := false
    m_cSIMDPack := 0
    m_cFloatBytes := 0
    m_cUIntBytes := 0
    m_pFunctionPointersCpp := none }

/-- FreeObjectiveWrapperInternals of bridge_c.h: free(m_pObjective) then
free(m_pFunctionPointersCpp).  The wrapper itself is returned unchanged —
the function writes through neither field. -/
def FreeObjectiveWrapperInternals (pObjectiveWrapper : ObjectiveWrapper)
    (h : Heap) : Heap × ObjectiveWrapper :=
  (free pObjectiveWrapper.m_pFunctionPointersCpp
      (free pObjectiveWrapper.m_pObjective h),
    pObjectiveWrapper)

/-- C2: destroying a binding releases both opaque owned payloads — the
objective closure m_pObjective and the backend function-pointer payload
m_pFunctionPointersCpp — together in the single
FreeObjectiveWrapperInternals call: after the call neither handle is live,
no other allocation is released, and no field of the ObjectiveWrapper is
modified. -/
theorem freeObjectiveWrapperInternals_spec (w : ObjectiveWrapper) (h : Heap) :
    ((FreeObjectiveWrapperInternals w h).2 = w) ∧
    (∀ p, w.m_pObjective = some p → p ∉ (FreeObjectiveWrapperInternals w h).1) ∧
    (∀ q, w.m_pFunctionPointersCpp = some q →
        q ∉ (FreeObjectiveWrapperInternals w h).1) ∧
    (∀ r, r ∈ h → w.m_pObjective ≠ some r → w.m_pFunctionPointersCpp ≠ some r →
        r ∈ (FreeObjectiveWrapperInternals w h).1) := by
  refine ⟨rfl, ?_, ?_, ?_⟩
  · intro p hp
    rw [FreeObjectiveWrapperInternals]
    simp only [hp, free]
    cases hq : w.m_pFunctionPointersCpp with
    | none => simp [free]
    | some q => simp [free, Finset.mem_erase]
  · intro q hq
    rw [FreeObjectiveWrapperInternals]
    simp [hq, free, Finset.mem_erase]
  · intro r hr hp hq
    rw [FreeObjectiveWrapperInternals]
    cases hP : w.m_pObjective with
    | none =>
      cases hQ : w.m_pFunctionPointersCpp with
      | none => simpa [free] using hr
      | some q =>
        have : r ≠ q := fun e => hq (by rw [hQ, e])
        simp [free, Finset.mem_erase, this, hr]
    | some p =>
      have hrp : r ≠ p := fun e => hp (by rw [hP, e])
      cases hQ : w.m_pFunctionPointersCpp with
      | none => simp [free, Finset.mem_erase, hrp, hr]
      | some q =>
        have hrq : r ≠ q := fun e => hq (by rw [hQ, e])
        simp [free, Finset.mem_erase, hrp, hrq, hr]

/-- C2 witness: the destruction properties at a concrete wrapper owning
handles 5 and 6, over a heap also holding an unrelated handle 9. -/
theorem freeObjectiveWrapperInternals_spec_witness :
    ((FreeObjectiveWrapperInternals
        { m_pApplyUpdateC := some 1, m_pFinishMetricC := some 2,
          m_pCheckTargetsC := some 3, m_pBinSumsBoostingC := some 4,
          m_pBinSumsInteractionC := some 7, m_pObjective := some 5,
          m_bMaximizeMetric := false, m_linkFunction := LinkEbm.Link_identity,
          m_linkParam := 0, m_learningRateAdjustmentDifferentialPrivacy := 1,
          m_learningRateAdjustmentGradientBoosting := 1,
          m_learningRateAdjustmentHessianBoosting := 1,
          m_gainAdjustmentGradientBoosting := 1,
          m_gainAdjustmentHessianBoosting := 1, m_gradientConstant := 1,
          m_hessianConstant := 1, m_bObjectiveHasHessian := true,
          m_bRmse := false, m_cSIMDPack := 8, m_cFloatBytes := 4,
          m_cUIntBytes := 4, m_pFunctionPointersCpp := some 6 }
        {5, 6, 9}).2 =
      { m_pApplyUpdateC := some 1, m_pFinishMetricC := some 2,
        m_pCheckTargetsC := some 3, m_pBinSumsBoostingC := some 4,
        m_pBinSumsInteractionC := some 7, m_pObjective := some 5,
        m_bMaximizeMetric := false, m_linkFunction := LinkEbm.Link_identity,
        m_linkParam := 0, m_learningRateAdjustmentDifferentialPrivacy := 1,
        m_learningRateAdjustmentGradientBoosting := 1,
        m_learningRateAdjustmentHessianBoosting := 1,
        m_gainAdjustmentGradientBoosting := 1,
        m_gainAdjustmentHessianBoosting := 1, m_gradientConstant := 1,
        m_hessianConstant := 1, m_bObjectiveHasHessian := true,
        m_bRmse := false, m_cSIMDPack := 8, m_cFloatBytes := 4,
        m_cUIntBytes := 4, m_pFunctionPointersCpp := some 6 }) :=
  (freeObjectiveWrapperInternals_spec
    { m_pApplyUpdateC := some 1, m_pFinishMetricC := some 2,
      m_pCheckTargetsC := some 3, m_pBinSumsBoostingC := some 4,
      m_pBinSumsInteractionC := some 7, m_pObjective := some 5,
      m_bMaximizeMetric := false, m_linkFunction := LinkEbm.Link_identity,
      m_linkParam := 0, m_learningRateAdjustmentDifferentialPrivacy := 1,
      m_learningRateAdjustmentGradientBoosting := 1,
      m_learningRateAdjustmentHessianBoosting := 1,
      m_gainAdjustmentGradientBoosting := 1,
      m_gainAdjustmentHessianBoosting := 1, m_gradientConstant := 1,
      m_hessianConstant := 1, m_bObjectiveHasHessian := true,
      m_bRmse := false, m_cSIMDPack := 8, m_cFloatBytes := 4,
      m_cUIntBytes := 4, m_pFunctionPointersCpp := some 6 }
    {5, 6, 9}).1

/-- C10: after InitializeObjectiveWrapperUnfailing, all five entry-point
function pointers and both opaque payload pointers are NULL, the link tag
is Link_ERROR, and every scalar parameter is zero or false; consequently
FreeObjectiveWrapperInternals on an initialized-but-never-populated wrapper
releases nothing (free of NULL is a no-op, so the heap is unchanged). -/
theorem initializeObjectiveWrapper_spec (w : ObjectiveWrapper) (h : Heap) :
    (InitializeObjectiveWrapperUnfailing w).m_pApplyUpdateC = none ∧
    (InitializeObjectiveWrapperUnfailing w).m_pFinishMetricC = none ∧
    (InitializeObjectiveWrapperUnfailing w).m_pCheckTargetsC = none ∧
    (InitializeObjectiveWrapperUnfailing w).m_pBinSumsBoostingC = none ∧
    (InitializeObjectiveWrapperUnfailing w).m_pBinSumsInteractionC = none ∧
    (InitializeObjectiveWrapperUnfailing w).m_pObjective = none ∧
    (InitializeObjectiveWrapperUnfailing w).m_pFunctionPointersCpp = none ∧
    (InitializeObjectiveWrapperUnfailing w).m_linkFunction = LinkEbm.Link_ERROR ∧
    (InitializeObjectiveWrapperUnfailing w).m_bMaximizeMetric = false ∧
    (InitializeObjectiveWrapperUnfailing w).m_linkParam = 0 ∧
    (InitializeObjectiveWrapperUnfailing w).m_learningRateAdjustmentDifferentialPrivacy = 0 ∧
    (InitializeObjectiveWrapperUnfailing w).m_learningRateAdjustmentGradientBoosting = 0 ∧
    (InitializeObjectiveWrapperUnfailing w).m_learningRateAdjustmentHessianBoosting = 0 ∧
    (InitializeObjectiveWrapperUnfailing w).m_gainAdjustmentGradientBoosting = 0 ∧
    (InitializeObjectiveWrapperUnfailing w).m_gainAdjustmentHessianBoosting = 0 ∧
    (InitializeObjectiveWrapperUnfailing w).m_gradientConstant = 0 ∧
    (InitializeObjectiveWrapperUnfailing w).m_hessianConstant = 0 ∧
    (InitializeObjectiveWrapperUnfailing w).m_bObjectiveHasHessian = false ∧
    (InitializeObjectiveWrapperUnfailing w).m_bRmse = false ∧
    (InitializeObjectiveWrapperUnfailing w).m_cSIMDPack = 0 ∧
    (InitializeObjectiveWrapperUnfailing w).m_cFloatBytes = 0 ∧
    (InitializeObjectiveWrapperUnfailing w).m_cUIntBytes = 0 ∧
    (FreeObjectiveWrapperInternals (InitializeObjectiveWrapperUnfailing w) h).1 = h := by
  refine ⟨rfl, rfl, rfl, rfl, rfl, rfl, rfl, rfl, rfl, rfl, rfl, rfl, rfl, rfl,
    rfl, rfl, rfl, rfl, rfl, rfl, rfl, rfl, rfl⟩

/-- Modelled from the spec: the registry environment a binding-creation call
runs against.  It packages the outcomes the spec treats as the recoverable
failure sources of construction — whether the requested objective name (with
its parameters) resolves in the static registry, and whether each of the two
heap allocations (the backend function-pointer table payload and the
objective closure payload) succeeds, the successful case carrying the fresh
handle the allocator returns. -/
structure CreateEnv where
  bKnownObjective : Bool
  allocFill : Option ℕ
  allocObj : Option ℕ
deriving DecidableEq

/-- Modelled from the spec: ComputeWrapper::FillWrapper of
compute_wrapper.hpp, which is not under src/.  Per the spec the registry
layer "allocate[s] and populate[s] a uniform function-pointer table"; on
allocation failure it reports the distinct out-of-memory code with nothing
allocated, and on success it installs the five backend entry points, this
backend's lane width (8) and 4-byte float and uint widths, and the
allocated C++ function-pointer payload. -/
def FillWrapper (env : CreateEnv) (h : Heap) (w : ObjectiveWrapper) :
    ErrorEbm × Heap × ObjectiveWrapper :=
  match env.allocFill with
  | none => (ErrorEbm.Error_OutOfMemory, h, w)
  | some p =>
    (ErrorEbm.Error_None, insert p h,
      { w with
        m_pApplyUpdateC := some 1
        m_pFinishMetricC := some 2
        m_pCheckTargetsC := some 3
        m_pBinSumsBoostingC := some 4
        m_pBinSumsInteractionC := some 5
        m_cSIMDPack := 8
        m_cFloatBytes := 4
        m_cUIntBytes := 4
        m_pFunctionPointersCpp := some p })

/-- Modelled from the spec: Objective::CreateObjective of Objective.hpp,
which is not under src/.  It looks the requested objective up in the static
registry; per the spec an unknown objective name or a name/parameter
mismatch "fails with an invalid-argument condition", "construction never
partially succeeds" and "no partial state escapes", so every failure path
(unknown name, or allocation failure for the objective closure) releases
the function-pointer payload the earlier FillWrapper call installed and
hands back a re-initialized wrapper; on success it allocates the objective
closure and copies the objective's scalar parameters into the wrapper. -/
def Objective.CreateObjective (env : CreateEnv) (h : Heap)
    (w : ObjectiveWrapper) : ErrorEbm × Heap × ObjectiveWrapper :=
  if env.bKnownObjective = false then
    (ErrorEbm.Error_IllegalArgument, free w.m_pFunctionPointersCpp h,
      InitializeObjectiveWrapperUnfailing w)
  else
    match env.allocObj with
    | none =>
      (ErrorEbm.Error_OutOfMemory, free w.m_pFunctionPointersCpp h,
        InitializeObjectiveWrapperUnfailing w)
    | some q =>
      (ErrorEbm.Error_None, insert q h,
        { w with
          m_pObjective := some q
          m_linkFunction := LinkEbm.Link_identity
          m_linkParam := 0
          m_learningRateAdjustmentDifferentialPrivacy := 1
          m_learningRateAdjustmentGradientBoosting := 1
          m_learningRateAdjustmentHessianBoosting := 1
          m_gainAdjustmentGradientBoosting := 1
          m_gainAdjustmentHessianBoosting := 1
          m_gradientConstant := 1
          m_hessianConstant := 1
          m_bObjectiveHasHessian := true })

/-- CreateObjective_Avx2_32 of avx2_32.cpp: run
ComputeWrapper::FillWrapper on the output wrapper and return its error on
failure; then run Objective::CreateObjective and return its error on
failure; otherwise return Error_None.  The registry lookup of the requested
objective name and the allocator outcomes are carried by the environment. -/
def CreateObjective_Avx2_32 (env : CreateEnv) (h : Heap)
    (pObjectiveWrapperOut : ObjectiveWrapper) :
    ErrorEbm × Heap × ObjectiveWrapper :=
  let r1 := FillWrapper env h pObjectiveWrapperOut
  if r1.1 ≠ ErrorEbm.Error_None then r1
  else
    let r2 := Objective.CreateObjective env r1.2.1 r1.2.2
    if r2.1 ≠ ErrorEbm.Error_None then r2
    else (ErrorEbm.Error_None, r2.2.1, r2.2.2)

/-- A fully populated binding: all five entry points and both owned
payloads are non-NULL, the link tag is a valid one, and the backend
geometry parameters are filled in. -/
def FullyPopulated (w : ObjectiveWrapper) : Prop :=
  w.m_pApplyUpdateC ≠ none ∧ w.m_pFinishMetricC ≠ none ∧
  w.m_pCheckTargetsC ≠ none ∧ w.m_pBinSumsBoostingC ≠ none ∧
  w.m_pBinSumsInteractionC ≠ none ∧ w.m_pObjective ≠ none ∧
  w.m_pFunctionPointersCpp ≠ none ∧ w.m_linkFunction ≠ LinkEbm.Link_ERROR ∧
  w.m_cSIMDPack ≠ 0 ∧ w.m_cFloatBytes ≠ 0 ∧ w.m_cUIntBytes ≠ 0

instance (w : ObjectiveWrapper) : Decidable (FullyPopulated w) :=
  inferInstanceAs (Decidable (_ ∧ _))

/-- C1: when the requested objective name is unknown (or mismatches its
parameters) the construction fails with the invalid-argument code (provided
construction got past the table allocation); whenever
CreateObjective_Avx2_32 returns a non-success code the heap is exactly what
it was before the call — nothing remains allocated — and the output wrapper
is either untouched or re-initialized, so no partial state escapes through
it; and whenever it returns success the returned binding is fully
populated.  The freshness hypothesis states that the allocator hands out a
handle that is not already live. -/
theorem createObjective_avx2_32_spec (env : CreateEnv) (h : Heap)
    (w : ObjectiveWrapper)
    (hfresh : ∀ p, env.allocFill = some p → p ∉ h) :
    (env.bKnownObjective = false → env.allocFill ≠ none →
      (CreateObjective_Avx2_32 env h w).1 = ErrorEbm.Error_IllegalArgument) ∧
    ((CreateObjective_Avx2_32 env h w).1 ≠ ErrorEbm.Error_None →
      (CreateObjective_Avx2_32 env h w).2.1 = h ∧
      ((CreateObjective_Avx2_32 env h w).2.2 = w ∨
        (CreateObjective_Avx2_32 env h w).2.2 =
          InitializeObjectiveWrapperUnfailing w)) ∧
    ((CreateObjective_Avx2_32 env h w).1 = ErrorEbm.Error_None →
      FullyPopulated (CreateObjective_Avx2_32 env h w).2.2) := by
  cases henv : env.allocFill with
  | none =>
    have hr : CreateObjective_Avx2_32 env h w =
        (ErrorEbm.Error_OutOfMemory, h, w) := by
      simp [CreateObjective_Avx2_32, FillWrapper, henv]
    refine ⟨fun _ hne => absurd rfl hne, fun _ => ?_, fun hok => ?_⟩
    · rw [hr]
      exact ⟨rfl, Or.inl rfl⟩
    · rw [hr] at hok
      simp at hok
  | some p =>
    have hp : p ∉ h := hfresh p henv
    cases hknown : env.bKnownObjective with
    | false =>
      have hr : CreateObjective_Avx2_32 env h w =
          (ErrorEbm.Error_IllegalArgument, (insert p h).erase p,
            InitializeObjectiveWrapperUnfailing w) := by
        simp [CreateObjective_Avx2_32, FillWrapper, Objective.CreateObjective,
          henv, hknown, free, InitializeObjectiveWrapperUnfailing]
      refine ⟨fun _ _ => by rw [hr], fun _ => ?_, fun hok => ?_⟩
      · rw [hr]
        exact ⟨Finset.erase_insert hp, Or.inr rfl⟩
      · rw [hr] at hok
        simp at hok
    | true =>
      cases hobj : env.allocObj with
      | none =>
        have hr : CreateObjective_Avx2_32 env h w =
            (ErrorEbm.Error_OutOfMemory, (insert p h).erase p,
              InitializeObjectiveWrapperUnfailing w) := by
          simp [CreateObjective_Avx2_32, FillWrapper, Objective.CreateObjective,
            henv, hknown, hobj, free, InitializeObjectiveWrapperUnfailing]
        refine ⟨fun hf _ => absurd hf (by decide), fun _ => ?_, fun hok => ?_⟩
        · rw [hr]
          exact ⟨Finset.erase_insert hp, Or.inr rfl⟩
        · rw [hr] at hok
          simp at hok
      | some q =>
        refine ⟨fun hf _ => absurd hf (by decide), fun hne => absurd ?_ hne,
          fun _ => ?_⟩
        · show (CreateObjective_Avx2_32 env h w).1 = ErrorEbm.Error_None
          simp [CreateObjective_Avx2_32, FillWrapper, Objective.CreateObjective,
            henv, hknown, hobj]
        · simp [CreateObjective_Avx2_32, FillWrapper, Objective.CreateObjective,
            henv, hknown, hobj, FullyPopulated]

/-- The all-NULL wrapper used as a concrete pre-call output argument. -/
def emptyWrapper : ObjectiveWrapper :=
  { m_pApplyUpdateC := none, m_pFinishMetricC := none, m_pCheckTargetsC := none,
    m_pBinSumsBoostingC := none, m_pBinSumsInteractionC := none,
    m_pObjective := none, m_bMaximizeMetric := false,
    m_linkFunction := LinkEbm.Link_ERROR, m_linkParam := 0,
    m_learningRateAdjustmentDifferentialPrivacy := 0,
    m_learningRateAdjustmentGradientBoosting := 0,
    m_learningRateAdjustmentHessianBoosting := 0,
    m_gainAdjustmentGradientBoosting := 0,
    m_gainAdjustmentHessianBoosting := 0, m_gradientConstant := 0,
    m_hessianConstant := 0, m_bObjectiveHasHessian := false, m_bRmse := false,
    m_cSIMDPack := 0, m_cFloatBytes := 0, m_cUIntBytes := 0,
    m_pFunctionPointersCpp := none }

/-- C1 witness: the construction contract at a concrete environment in
which the name resolves and both allocations succeed, over the empty heap
and an all-NULL output wrapper. -/
theorem createObjective_avx2_32_spec_witness :
    (∀ p, (CreateEnv.mk true (some 10) (some 20)).allocFill = some p →
        p ∉ (∅ : Heap)) ∧
    ((CreateObjective_Avx2_32 (CreateEnv.mk true (some 10) (some 20)) ∅
        emptyWrapper).1 = ErrorEbm.Error_None →
      FullyPopulated (CreateObjective_Avx2_32
        (CreateEnv.mk true (some 10) (some 20)) ∅ emptyWrapper).2.2) :=
  ⟨by decide,
    (createObjective_avx2_32_spec (CreateEnv.mk true (some 10) (some 20)) ∅
      emptyWrapper (by decide)).2.2⟩
